import Mathlib

/-!
Verification of the real-time audio-activity engine of the `bot-voice-chat`
repository, shallowly embedded in Lean 4.

Sources embedded here:
* `frontend/src/composables/useSpeechInterrupt.js` — the `AdaptiveThreshold`
  class, the `AudioAnalyzer` helpers, and the `detectSpeech` frame loop of
  `useSpeechInterrupt` (both the adaptive and the legacy branch), plus the
  self-recursive `calibrationTimer`.
* `frontend/src/composables/useVAD.js` — the dictation VAD preset.
* `frontend/src/composables/useWakeWord.js` and
  `frontend/src/components/VoiceInput.vue` — the wake-word response states and
  the 5-second recording countdown.

Modelling conventions:
* JavaScript numbers are modelled by `ℚ`; `NaN` (which arises from `0/0` on an
  empty frame) is modelled explicitly where it matters (`JSVal`).
* `Math.sqrt` is irrational on most inputs, so the whole development is
  parameterised by an arbitrary square-root function `msqrt : ℚ → ℚ`; every
  theorem below holds for every choice of `msqrt`, in particular for the real
  square root.
* `Date.now()` is passed in explicitly as a `now : ℚ` argument.
* JavaScript `x || default` (which replaces `0`, `null` and `undefined` by the
  default) is modelled by `jsOrQ`; ES6 destructuring defaults (which replace
  only `undefined`) are modelled by `Option.getD`.
-/

set_option maxRecDepth 8000

/-- JavaScript `v || d` for an optional numeric option field: `undefined`
(= `none`) and the falsy number `0` both fall back to the default. -/
def jsOrQ (v : Option ℚ) (d : ℚ) : ℚ :=
  match v with
  | none => d
  | some x => if x = 0 then d else x

/-- Options object accepted by the `AdaptiveThreshold` constructor
(`useSpeechInterrupt.js` lines 8–15); `none` models an absent field. -/
structure ATOptions where
  thresholdOffset : Option ℚ
  stdMultiplier : Option ℚ
  calibrationInterval : Option ℚ
  noiseSampleSize : Option ℚ
  minThreshold : Option ℚ
  maxThreshold : Option ℚ

/-- The empty options object `{}`. -/
def ATOptions.empty : ATOptions :=
  ⟨none, none, none, none, none, none⟩

/-- State of one `AdaptiveThreshold` instance (`useSpeechInterrupt.js`
lines 7–30): configuration fields, mutable detection state, and the `stats`
record flattened into `statsMean`/`statsStd`/`statsSamples`. -/
structure AT where
  thresholdOffset : ℚ
  stdMultiplier : ℚ
  calibrationInterval : ℚ
  noiseSampleSize : ℚ
  minThreshold : ℚ
  maxThreshold : ℚ
  noiseFloor : ℚ
  threshold : ℚ
  noiseSamples : List ℚ
  lastCalibration : ℚ
  isCalibrated : Bool
  statsMean : ℚ
  statsStd : ℚ
  statsSamples : ℕ
deriving DecidableEq

/-- `new AdaptiveThreshold(options)` at time `now` (`Date.now()`):
each config field goes through JavaScript `||` with its default. -/
def AT.new (o : ATOptions) (now : ℚ) : AT :=
  { thresholdOffset := jsOrQ o.thresholdOffset 15
    stdMultiplier := jsOrQ o.stdMultiplier (5/2)
    calibrationInterval := jsOrQ o.calibrationInterval 30000
    noiseSampleSize := jsOrQ o.noiseSampleSize 50
    minThreshold := jsOrQ o.minThreshold (-60)
    maxThreshold := jsOrQ o.maxThreshold (-20)
    noiseFloor := -60
    threshold := -45
    noiseSamples := []
    lastCalibration := now
    isCalibrated := false
    statsMean := -60
    statsStd := 5
    statsSamples := 0 }

/-- `calculateMean(data)` (`useSpeechInterrupt.js` lines 92–96): `-60` on an
empty array, the arithmetic mean otherwise. -/
def calculateMean (data : List ℚ) : ℚ :=
  if data.length = 0 then -60 else data.sum / data.length

/-- `calculateStd(data, mean)` (`useSpeechInterrupt.js` lines 101–107): `5`
when fewer than two samples, otherwise `msqrt` of the mean squared deviation.
The `mean` argument defaults to `null` (= `none`), in which case the mean is
recomputed. -/
def calculateStd (msqrt : ℚ → ℚ) (data : List ℚ) (mean : Option ℚ) : ℚ :=
  if data.length < 2 then 5
  else
    let m := mean.getD (calculateMean data)
    msqrt ((data.map (fun v => (v - m) ^ 2)).sum / data.length)

/-- `calibrate(samples = null)` at time `now` (`useSpeechInterrupt.js`
lines 52–87). `samples = none` models the `null` default, in which case the
buffered `noiseSamples` are used (`samples || this.noiseSamples`; a passed
array is always truthy, even when empty). Fewer than 10 samples: no state
change (only a `console.warn`). Otherwise the stats, threshold (clamped by
`Math.max(min, Math.min(max, ·))`), noise floor, calibration time and
`isCalibrated` flag are updated and the buffer is cleared. -/
def AT.calibrate (msqrt : ℚ → ℚ) (now : ℚ) (samples : Option (List ℚ))
    (st : AT) : AT :=
  let data := match samples with
    | none => st.noiseSamples
    | some l => l
  if data.length < 10 then st
  else
    let mean := calculateMean data
    let std := calculateStd msqrt data (some mean)
    let newThreshold :=
      max st.minThreshold
        (min st.maxThreshold (mean + st.stdMultiplier * std + st.thresholdOffset))
    { st with
      statsMean := mean
      statsStd := std
      statsSamples := data.length
      threshold := newThreshold
      noiseFloor := mean
      lastCalibration := now
      isCalibrated := true
      noiseSamples := [] }

/-- `addNoiseSample(db)` at time `now` (`useSpeechInterrupt.js` lines 35–47):
push the sample, drop the oldest while over `2 * noiseSampleSize`, then
recalibrate opportunistically once `now - lastCalibration` exceeds
`calibrationInterval`. -/
def AT.addNoiseSample (msqrt : ℚ → ℚ) (now : ℚ) (db : ℚ) (st : AT) : AT :=
  let ns := st.noiseSamples ++ [db]
  let ns := if (ns.length : ℚ) > st.noiseSampleSize * 2 then ns.tail else ns
  let st := { st with noiseSamples := ns }
  if now - st.lastCalibration > st.calibrationInterval then
    st.calibrate msqrt now none
  else st

/-- `reset()` (`useSpeechInterrupt.js` lines 126–132): clears the buffer and
reverts the detection state and stats to their defaults (note that
`lastCalibration` is left untouched). -/
def AT.reset (st : AT) : AT :=
  { st with
    noiseSamples := []
    threshold := -45
    noiseFloor := -60
    isCalibrated := false
    statsMean := -60
    statsStd := 5
    statsSamples := 0 }

/-- One public mutating operation on an `AdaptiveThreshold` instance, with
the `Date.now()` value observed during the call. -/
inductive ATOp where
  | addSample (now db : ℚ)
  | calib (now : ℚ) (samples : Option (List ℚ))
  | reset
deriving DecidableEq

/-- Apply one operation. -/
def ATOp.apply (msqrt : ℚ → ℚ) (st : AT) : ATOp → AT
  | .addSample now db => st.addNoiseSample msqrt now db
  | .calib now samples => st.calibrate msqrt now samples
  | .reset => st.reset

/-- Apply a sequence of operations, oldest first. -/
def AT.run (msqrt : ℚ → ℚ) (st : AT) (ops : List ATOp) : AT :=
  ops.foldl (fun s op => op.apply msqrt s) st

/-- The spec's intended data-model invariant for `ThresholdModel`:
the detection threshold lies between the configured bounds. -/
def ATInRange (st : AT) : Prop :=
  st.minThreshold ≤ st.threshold ∧ st.threshold ≤ st.maxThreshold

/-- Auxiliary invariant: the bounds bracket the hard-coded default/reset
threshold `-45`, and the current threshold is in range. -/
def ATRangeInv (st : AT) : Prop :=
  st.minThreshold ≤ -45 ∧ -45 ≤ st.maxThreshold ∧ ATInRange st

/-- `calibrate` as the spec words it (§4.2): fewer than 10 buffered samples
is a no-op; otherwise take the mean and the (population) standard deviation
of the buffered samples, set
`threshold = clamp(mean + stdMultiplier·std + thresholdOffset, minThreshold,
maxThreshold)`, set `noiseFloor = mean`, update the stats, clear the buffer,
mark `isCalibrated = true` and record `calibratedAt = now`. Written from the
spec's words, to be compared with `AT.calibrate` from the source. -/
def calibrateSpec (msqrt : ℚ → ℚ) (now : ℚ) (st : AT) : AT :=
  if st.noiseSamples.length < 10 then st
  else
    let mean := st.noiseSamples.sum / (st.noiseSamples.length : ℚ)
    let std :=
      msqrt ((st.noiseSamples.map (fun v => (v - mean) ^ 2)).sum /
        (st.noiseSamples.length : ℚ))
    { st with
      threshold :=
        max st.minThreshold
          (min st.maxThreshold (mean + st.stdMultiplier * std + st.thresholdOffset))
      noiseFloor := mean
      noiseSamples := []
      isCalibrated := true
      lastCalibration := now
      statsMean := mean
      statsStd := std
      statsSamples := st.noiseSamples.length }

/-- A JavaScript number that is either a real (rational) value or `NaN`.
`NaN` arises in this code base only from `0/0` on an empty frame. -/
inductive JSVal where
  | nan
  | num (q : ℚ)
deriving DecidableEq

/-- `calculateAverage(dataArray)` (`useSpeechInterrupt.js` lines 437–443):
the loop sums the byte values and divides by the length; for an empty array
this is JavaScript `0/0 = NaN`. -/
def calculateAverage (frame : List ℕ) : JSVal :=
  if frame.length = 0 then JSVal.nan
  else JSVal.num ((frame.sum : ℚ) / (frame.length : ℚ))

/-- Result of `AudioAnalyzer.toDecibel`: either the sentinel `-100` or the
symbolic value `20 * Math.log10(v / 255)` of the (not further evaluated)
logarithm applied to the input `v`; `logOf JSVal.nan` stands for `NaN`. -/
inductive DbOut where
  | sentinel
  | logOf (v : JSVal)
deriving DecidableEq

/-- JavaScript `value <= 0`: any comparison with `NaN` is `false`. -/
def jsLeZero : JSVal → Bool
  | JSVal.nan => false
  | JSVal.num q => decide (q ≤ 0)

/-- `AudioAnalyzer.toDecibel(value)` (`useSpeechInterrupt.js` lines 169–172):
`if (value <= 0) return -100; return 20 * Math.log10(value / 255)`. -/
def toDecibel (v : JSVal) : DbOut :=
  if jsLeZero v then DbOut.sentinel else DbOut.logOf v

/-- `calibrationTimer()` (`useSpeechInterrupt.js` lines 296–301), indexed by
the available call-stack depth `gas`: the function returns immediately when
listening has stopped or no adaptive estimator exists, and otherwise calls
itself synchronously with entirely unchanged state (no delay is ever
scheduled). The result is `true` when the call completes within `gas` nested
calls and `false` when it does not. -/
def calibrationTimerCompletes : ℕ → Bool → Bool → Bool
  | 0, _, _ => false
  | gas + 1, listening, hasAdaptive =>
    if listening = false ∨ hasAdaptive = false then true
    else calibrationTimerCompletes gas listening hasAdaptive

/-- Options object accepted by `useSpeechInterrupt(options)`
(`useSpeechInterrupt.js` lines 188–204); `none` models an absent field. -/
structure SIOptions where
  legacyThreshold : Option ℚ
  enableAdaptive : Option Bool
  thresholdOffset : Option ℚ
  stdMultiplier : Option ℚ
  calibrationInterval : Option ℚ
  enableMultiLevel : Option Bool
  energyThreshold : Option ℚ
  zcrThreshold : Option ℚ
  speechConfirmCount : Option ℕ

/-- The empty options object `{}`. -/
def SIOptions.empty : SIOptions :=
  ⟨none, none, none, none, none, none, none, none, none⟩

/-- The configuration values after destructuring. -/
structure SIConfig where
  legacyThreshold : ℚ
  enableAdaptive : Bool
  thresholdOffset : ℚ
  stdMultiplier : ℚ
  calibrationInterval : ℚ
  enableMultiLevel : Bool
  energyThreshold : ℚ
  zcrThreshold : ℚ
  speechConfirmCount : ℕ
deriving DecidableEq

/-- The destructuring of `useSpeechInterrupt`'s options
(`useSpeechInterrupt.js` lines 189–204). Every right-hand side, the two
boolean expressions `options.enableAdaptive !== false` and
`options.enableMultiLevel !== true` included, is an ES6 destructuring
*default*: it is evaluated only when the property is `undefined`, and a
defined property passes through unchanged. For `enableAdaptive` the default
evaluates (on `undefined`) to `true`, which coincides with
`≠ some false` over all three cases; for `enableMultiLevel` the default
also evaluates to `true` (`undefined !== true`), so the field is simply the
given value with `true` for an absent one — the `!== true` expression never
sees a defined value. -/
def resolveConfig (o : SIOptions) : SIConfig :=
  { legacyThreshold := o.legacyThreshold.getD (-50)
    enableAdaptive := o.enableAdaptive ≠ some false
    thresholdOffset := o.thresholdOffset.getD 15
    stdMultiplier := o.stdMultiplier.getD (5/2)
    calibrationInterval := o.calibrationInterval.getD 30000
    enableMultiLevel := o.enableMultiLevel.getD true
    energyThreshold := o.energyThreshold.getD (1/50)
    zcrThreshold := o.zcrThreshold.getD (1/10)
    speechConfirmCount := o.speechConfirmCount.getD 2 }

/-- The per-frame metrics computed at the top of `detectSpeech`
(`useSpeechInterrupt.js` lines 348–351). The detector logic only compares
them against thresholds, so they are taken here as abstract rational
inputs. -/
structure Metrics where
  db : ℚ
  rms : ℚ
  zcr : ℚ
deriving DecidableEq

/-- Mutable state of the interrupt detector: the optional
`AdaptiveThreshold` instance and the `speechConfirmCounter`,
`lastSpeechTime`, `isSpeechActive`, `speechDetected` and
`currentThreshold` variables of `useSpeechInterrupt`. -/
structure DetState where
  adaptive : Option AT
  speechConfirmCounter : ℕ
  lastSpeechTime : ℚ
  isSpeechActive : Bool
  speechDetected : Bool
  currentThreshold : ℚ
deriving DecidableEq

/-- Detector state right after a successful `startListening()`
(`useSpeechInterrupt.js` lines 219–284): the adaptive estimator was created
at composable-setup time `tCreate` (when adaptive mode is enabled) and is
`reset()`; counter and flags are cleared. -/
def initDetState (cfg : SIConfig) (tCreate : ℚ) : DetState :=
  { adaptive :=
      if cfg.enableAdaptive then
        some ((AT.new
          ⟨some cfg.thresholdOffset, some cfg.stdMultiplier,
            some cfg.calibrationInterval, none, none, none⟩ tCreate).reset)
      else none
    speechConfirmCounter := 0
    lastSpeechTime := 0
    isSpeechActive := false
    speechDetected := false
    currentThreshold := cfg.legacyThreshold }

/-- Observable events of one `detectSpeech` frame: the frame's speech-like
judgement, whether `onSpeechDetected` fired, and whether the frame's dB
value was forwarded to `addNoiseSample`. -/
structure StepEvents where
  judgedSpeech : Bool
  fired : Bool
  noiseSampled : Bool
deriving DecidableEq

/-- The speech-likeness test of the adaptive branch
(`useSpeechInterrupt.js` lines 362–380): in multi-level mode RMS energy,
zero-crossing rate and dB threshold must all pass; otherwise the simple dB
comparison alone. -/
def judgeSpeech (cfg : SIConfig) (thr : ℚ) (m : Metrics) : Bool :=
  if cfg.enableMultiLevel then
    decide (m.rms > cfg.energyThreshold) &&
      (decide (m.zcr > cfg.zcrThreshold) && decide (m.zcr < 1/2)) &&
      decide (m.db > thr)
  else decide (m.db > thr)

/-- The legacy ("传统模式") branch of `detectSpeech`
(`useSpeechInterrupt.js` lines 407–427), taken whenever no adaptive
estimator exists or it is not yet calibrated: simple dB threshold, confirm
counter with cap, immediate silent deactivation once the decremented
counter reaches 0. -/
def legacyStep (cfg : SIConfig) (st : DetState) (m : Metrics) :
    DetState × StepEvents :=
  let st1 := { st with currentThreshold := cfg.legacyThreshold }
  let isSpeech := decide (m.db > cfg.legacyThreshold)
  if isSpeech then
    let c := st1.speechConfirmCounter + 1
    if cfg.speechConfirmCount ≤ c then
      if st1.isSpeechActive then
        ({ st1 with speechConfirmCounter := cfg.speechConfirmCount },
          ⟨true, false, false⟩)
      else
        ({ st1 with
            speechConfirmCounter := cfg.speechConfirmCount
            isSpeechActive := true
            speechDetected := true }, ⟨true, true, false⟩)
    else ({ st1 with speechConfirmCounter := c }, ⟨true, false, false⟩)
  else
    let c := st1.speechConfirmCounter - 1
    if st1.isSpeechActive && decide (c = 0) then
      ({ st1 with speechConfirmCounter := c, isSpeechActive := false },
        ⟨false, false, false⟩)
    else ({ st1 with speechConfirmCounter := c }, ⟨false, false, false⟩)

/-- The adaptive branch of `detectSpeech` (`useSpeechInterrupt.js`
lines 353–405), taken when the estimator exists and `isCalibrated`:
publish the adaptive threshold to `currentThreshold`, sample noise while
inactive and below the energy gate, judge the frame, then run the confirm
mechanism; deactivation zeroes the counter and happens on a non-speech
frame once `now - lastSpeechTime > 500` (with `lastSpeechTime` set only at
activation). -/
def adaptiveStep (cfg : SIConfig) (msqrt : ℚ → ℚ) (now : ℚ) (atv : AT)
    (m : Metrics) (st : DetState) : DetState × StepEvents :=
  let st1 := { st with currentThreshold := atv.threshold }
  let sampled := !st1.isSpeechActive && decide (m.rms < cfg.energyThreshold)
  let atv2 := if sampled then atv.addNoiseSample msqrt now m.db else atv
  let isSpeech := judgeSpeech cfg st1.currentThreshold m
  if isSpeech then
    let c := st1.speechConfirmCounter + 1
    if cfg.speechConfirmCount ≤ c then
      if st1.isSpeechActive then
        ({ st1 with
            adaptive := some atv2
            speechConfirmCounter := cfg.speechConfirmCount },
          ⟨true, false, sampled⟩)
      else
        ({ st1 with
            adaptive := some atv2
            speechConfirmCounter := cfg.speechConfirmCount
            isSpeechActive := true
            lastSpeechTime := now
            speechDetected := true }, ⟨true, true, sampled⟩)
    else
      ({ st1 with adaptive := some atv2, speechConfirmCounter := c },
        ⟨true, false, sampled⟩)
  else
    let c := st1.speechConfirmCounter - 1
    if st1.isSpeechActive && decide (now - st1.lastSpeechTime > 500) then
      ({ st1 with
          adaptive := some atv2
          speechConfirmCounter := 0
          isSpeechActive := false }, ⟨false, false, sampled⟩)
    else
      ({ st1 with adaptive := some atv2, speechConfirmCounter := c },
        ⟨false, false, sampled⟩)

/-- One frame of `detectSpeech` (`useSpeechInterrupt.js` lines 341–432):
the adaptive branch runs only when the estimator exists **and** is already
calibrated; otherwise the legacy branch runs. -/
def detectStep (cfg : SIConfig) (msqrt : ℚ → ℚ) (now : ℚ) (m : Metrics)
    (st : DetState) : DetState × StepEvents :=
  match st.adaptive with
  | some atv =>
    if atv.isCalibrated then adaptiveStep cfg msqrt now atv m st
    else legacyStep cfg st m
  | none => legacyStep cfg st m

/-- Run `detectSpeech` over a list of timed frames, recording for each
frame the state before it, the events it produced and the state after it. -/
def detTrace (cfg : SIConfig) (msqrt : ℚ → ℚ) (st : DetState) :
    List (ℚ × Metrics) → List (DetState × StepEvents × DetState)
  | [] => []
  | (now, m) :: rest =>
    let r := detectStep cfg msqrt now m st
    (st, r.2, r.1) :: detTrace cfg msqrt r.1 rest

/-- `true` when the detector currently holds a calibrated adaptive
estimator, i.e. when `detectSpeech` takes its adaptive branch. -/
def adaptiveCalibrated (st : DetState) : Bool :=
  match st.adaptive with
  | some atv => atv.isCalibrated
  | none => false

/-- Invariant of every state the interrupt detector reaches from
`startListening`: the adaptive estimator (if any) is still uncalibrated —
noise samples are only collected inside the calibrated branch, so
calibration can never be reached from the frame loop — and while inactive
the confirm counter is strictly below the confirm target. -/
def LegacyInv (cfg : SIConfig) (st : DetState) : Prop :=
  adaptiveCalibrated st = false ∧
    (st.isSpeechActive = false →
      st.speechConfirmCounter + 1 ≤ cfg.speechConfirmCount)

/-- A state from which a single speech-like frame cannot fire the callback:
either already active, or the counter is too far from the target. -/
def SpikeSafe (cfg : SIConfig) (st : DetState) : Prop :=
  st.isSpeechActive = true ∨
    st.speechConfirmCounter + 1 < cfg.speechConfirmCount

/-- The single-frame discipline of the confirm mechanism: the callback
fires only from an inactive state and only once the (post-increment)
counter has reached the confirm target, never while the detector is
already active; the counter increments capped at the target on speech-like
frames and decrements floored at 0 otherwise. -/
def ConfirmStepOK (cfg : SIConfig)
    (e : DetState × StepEvents × DetState) : Prop :=
  (e.2.1.fired = true →
      e.1.isSpeechActive = false ∧ e.2.2.isSpeechActive = true ∧
        e.2.2.speechConfirmCounter = cfg.speechConfirmCount) ∧
    (e.1.isSpeechActive = true → e.2.1.fired = false) ∧
    e.2.2.speechConfirmCounter =
      (if e.2.1.judgedSpeech then
        min (e.1.speechConfirmCounter + 1) cfg.speechConfirmCount
      else e.1.speechConfirmCounter - 1)

/-- Two consecutive frames: a speech-like frame immediately preceded by a
non-speech-like frame never fires the callback. -/
def IsolatedSpikeOK (a b : DetState × StepEvents × DetState) : Prop :=
  a.2.1.judgedSpeech = false → b.2.1.judgedSpeech = true →
    b.2.1.fired = false

/-- The `wakeResponseState` values of `useWakeWord.js`
(`idle | waking | recording | processing`). -/
inductive WakeState where
  | idle
  | waking
  | recording
  | processing
deriving DecidableEq

/-- A wake-response session: the current `wakeResponseState` and the states
handed to the `onWakeResponse` callbacks so far, in order. -/
structure WakeSession where
  state : WakeState
  notifications : List WakeState
deriving DecidableEq

/-- Each `enterXState()` helper of `useWakeWord.js` assigns the state and
notifies every registered `onWakeResponse` callback with it. -/
def WakeSession.enter (s : WakeSession) (w : WakeState) : WakeSession :=
  { state := w, notifications := s.notifications ++ [w] }

/-- `enterProcessingState()` (`useWakeWord.js` lines 38–41). It is defined
in the source but — as the theorems below show — never invoked on any
path. -/
def enterProcessingState (s : WakeSession) : WakeSession :=
  s.enter WakeState.processing

/-- `resetToIdle()` / `resetResponseState()` (`useWakeWord.js`). -/
def resetResponseState (s : WakeSession) : WakeSession :=
  s.enter WakeState.idle

/-- The wake-match branch of `processAudioCallback` (`useWakeWord.js`):
on a non-negative match index it runs `enterWakingState()` immediately
followed by `enterRecordingState()`, then invokes the `onWakeWord`
callbacks (which in `VoiceInput.vue` start the recording countdown). -/
def onWakeMatch (s : WakeSession) : WakeSession :=
  (s.enter WakeState.waking).enter WakeState.recording

/-- The countdown loop of `startWakeWordRecording` (`VoiceInput.vue` lines
154–165): `recordingCountdown` starts at `totalDuration / 1000`; a 1000 ms
interval decrements it, emits the new value as a `recording-countdown`
event, and clears itself once the value reaches 0. `countdownTicks v t`
returns the `(time, value)` pairs emitted from counter value `v` with the
last firing at time `t`. -/
def countdownTicks : ℕ → ℚ → List (ℚ × ℕ)
  | 0, _ => []
  | n + 1, t => (t + 1000, n) :: countdownTicks n (t + 1000)

/-- One full wake-word recording session started by a wake match at time
`t0` with no manual stop (`VoiceInput.vue` lines 143–189): the match
drives idle → waking → recording; the 5000 ms countdown emits one tick per
second; the 5000 ms timeout then runs `wakeWordStopRecording`, which calls
`resetResponseState()` (→ `resetToIdle()`) and the manual-stop handler.
Returns the final session and the emitted countdown ticks. -/
def wakeSessionRun (t0 : ℚ) : WakeSession × List (ℚ × ℕ) :=
  let s := onWakeMatch ⟨WakeState.idle, []⟩
  let ticks := countdownTicks (5000 / 1000) t0
  (resetResponseState s, ticks)

/-- Configuration of the VAD preset (`useVAD.js` lines 127–138); every
field goes through JavaScript `||` with its default
(`threshold 0.02`, `endSilenceDuration 800`, `minSpeechDuration 300`). -/
structure VADConfig where
  threshold : ℚ
  endSilenceDuration : ℚ
  minSpeechDuration : ℚ
deriving DecidableEq

/-- `useVAD(options)` config resolution. -/
def VADConfig.ofOptions (thr endSil minSp : Option ℚ) : VADConfig :=
  { threshold := jsOrQ thr (1/50)
    endSilenceDuration := jsOrQ endSil 800
    minSpeechDuration := jsOrQ minSp 300 }

/-- The config `VoiceInput.vue` (lines 32–36) passes to `useVAD`. -/
def vadVoiceInputConfig : VADConfig :=
  VADConfig.ofOptions (some (1/50)) (some 800) (some 300)

/-- Mutable VAD state: `isSpeechActive`, `speechStartTime`,
`silenceStartTime` (`null` = `none`). -/
structure VADState where
  isSpeechActive : Bool
  speechStartTime : Option ℚ
  silenceStartTime : Option ℚ
deriving DecidableEq

/-- VAD state right after `start()` (`useVAD.js` lines 271–275). -/
def vadInit : VADState := ⟨false, none, none⟩

/-- Edge events of one detection-loop tick. -/
structure VADEvents where
  startFired : Bool
  endFired : Bool
deriving DecidableEq

/-- JavaScript truthiness of a nullable timestamp: `null` and `0` are both
falsy (`useVAD.js` tests `if (!silenceStartTime)` and
`speechStartTime ? … : 0`). -/
def jsTruthyOpt : Option ℚ → Bool
  | none => false
  | some q => !decide (q = 0)

/-- One tick of `detectionLoop` (`useVAD.js` lines 194–242) at time `now`
with computed volume `volume`: crossing above the threshold while inactive
activates, records `speechStartTime` and fires `onSpeechStart` (clearing
any silence window); above the threshold while active nothing happens (in
particular a pending silence window is *kept*); below the threshold while
active the silence start is recorded if not already set (`0` counting as
unset), and once `now - silenceStartTime ≥ endSilenceDuration` and
`now - speechStartTime ≥ minSpeechDuration` the detector deactivates and
fires `onSpeechEnd`. -/
def vadStep (cfg : VADConfig) (now volume : ℚ) (st : VADState) :
    VADState × VADEvents :=
  if volume > cfg.threshold then
    if st.isSpeechActive then (st, ⟨false, false⟩)
    else (⟨true, some now, none⟩, ⟨true, false⟩)
  else
    if st.isSpeechActive then
      let sst := if jsTruthyOpt st.silenceStartTime then st.silenceStartTime
        else some now
      let silenceDuration := now - sst.getD 0
      let speechDuration :=
        if jsTruthyOpt st.speechStartTime then now - st.speechStartTime.getD 0
        else 0
      if silenceDuration ≥ cfg.endSilenceDuration ∧
          speechDuration ≥ cfg.minSpeechDuration then
        (⟨false, none, none⟩, ⟨false, true⟩)
      else ({ st with silenceStartTime := sst }, ⟨false, false⟩)
    else (st, ⟨false, false⟩)

/-- Run the VAD loop over timed volumes, recording for each tick the state
before it, its events and the state after it. -/
def vadTrace (cfg : VADConfig) (st : VADState) :
    List (ℚ × ℚ) → List (VADState × VADEvents × VADState)
  | [] => []
  | (now, v) :: rest =>
    let r := vadStep cfg now v st
    (st, r.2, r.1) :: vadTrace cfg r.1 rest

theorem ATRangeInv.calibrate {st : AT} (h : ATRangeInv st) (msqrt : ℚ → ℚ)
    (now : ℚ) (samples : Option (List ℚ)) :
    ATRangeInv (st.calibrate msqrt now samples) := by
  unfold AT.calibrate
  dsimp only
  split
  · exact h
  · exact ⟨h.1, h.2.1, le_max_left _ _,
      max_le (h.1.trans h.2.1) (min_le_left _ _)⟩

theorem ATRangeInv.addNoiseSample {st : AT} (h : ATRangeInv st)
    (msqrt : ℚ → ℚ) (now db : ℚ) :
    ATRangeInv (st.addNoiseSample msqrt now db) := by
  unfold AT.addNoiseSample
  dsimp only
  split
  · apply ATRangeInv.calibrate _ msqrt now none
    exact ⟨h.1, h.2.1, h.2.2⟩
  · exact ⟨h.1, h.2.1, h.2.2⟩

theorem ATRangeInv.reset {st : AT} (h : ATRangeInv st) :
    ATRangeInv st.reset :=
  ⟨h.1, h.2.1, h.1, h.2.1⟩

theorem ATRangeInv.run {st : AT} (h : ATRangeInv st) (msqrt : ℚ → ℚ)
    (ops : List ATOp) : ATRangeInv (st.run msqrt ops) := by
  induction ops generalizing st with
  | nil => exact h
  | cons op rest ih =>
    cases op with
    | addSample now db => exact ih (h.addNoiseSample msqrt now db)
    | calib now samples => exact ih (h.calibrate msqrt now samples)
    | reset => exact ih h.reset

/-- C1 (amended): for every `AdaptiveThreshold` instance whose resolved
bounds bracket the built-in default threshold `-45` — which holds for the
default bounds `[-60, -20]`, and hence for every instance this program
constructs, since `useSpeechInterrupt` never overrides the bounds — the
detection threshold lies within `[minThreshold, maxThreshold]` immediately
after construction and after any sequence of `addNoiseSample`, `calibrate`
and `reset` operations; in particular every `calibrate` result is clamped
into this range. -/
theorem threshold_always_in_range (msqrt : ℚ → ℚ) (o : ATOptions) (now0 : ℚ)
    (hmin : (AT.new o now0).minThreshold ≤ -45)
    (hmax : -45 ≤ (AT.new o now0).maxThreshold)
    (ops : List ATOp) :
    ATInRange ((AT.new o now0).run msqrt ops) :=
  (ATRangeInv.run ⟨hmin, hmax, hmin, hmax⟩ msqrt ops).2.2

/-- Witness for C1: with the default options the hypotheses hold, and after
a `reset`, an `addNoiseSample` and a `calibrate` the threshold is still in
range. -/
theorem threshold_always_in_range_witness :
    (AT.new ATOptions.empty 0).minThreshold ≤ -45 ∧
      -45 ≤ (AT.new ATOptions.empty 0).maxThreshold ∧
      ATInRange ((AT.new ATOptions.empty 0).run (fun q => q)
        [ATOp.reset, ATOp.addSample 1 (-50), ATOp.calib 2 none]) :=
  ⟨by decide, by decide,
    threshold_always_in_range (fun q => q) ATOptions.empty 0 (by decide)
      (by decide) [ATOp.reset, ATOp.addSample 1 (-50), ATOp.calib 2 none]⟩

/-- C1 (counterexample): the claim as stated fails for an instance
constructed with bounds that do not bracket `-45`: `new AdaptiveThreshold({
minThreshold: -44, maxThreshold: -30 })` has `threshold = -45` immediately
after construction, strictly below its own `minThreshold`. -/
theorem threshold_out_of_range_at_construction :
    ¬ ATInRange (AT.new ⟨none, none, none, none, some (-44), some (-30)⟩ 0) := by
  unfold ATInRange
  decide

/-- C2: `calibrate()` on the buffered samples behaves exactly as the spec
states: with fewer than 10 buffered samples it is a no-op leaving threshold,
`isCalibrated`, noise floor, stats and buffer unchanged; with at least 10 it
sets the clamped threshold, the noise floor, the stats, clears the buffer,
marks `isCalibrated` and records the calibration time. -/
theorem calibrate_matches_spec (msqrt : ℚ → ℚ) (now : ℚ) (st : AT) :
    st.calibrate msqrt now none = calibrateSpec msqrt now st := by
  unfold AT.calibrate calibrateSpec
  by_cases h : st.noiseSamples.length < 10
  · simp [h]
  · have hlen0 : ¬ st.noiseSamples.length = 0 := by omega
    have hlen2 : ¬ st.noiseSamples.length < 2 := by omega
    simp [h, calculateMean, calculateStd, hlen0, hlen2]

example : (AT.new ATOptions.empty 0).threshold = -45 := by decide

example : (AT.new ATOptions.empty 0).minThreshold = -60 := by decide

example :
    ((AT.new ATOptions.empty 0).calibrate (fun q => q) 7
      (some [1, 2, 3])) = AT.new ATOptions.empty 0 := by
  norm_num [AT.calibrate]

example :
    ((AT.new ATOptions.empty 0).calibrate (fun _ => 4) 7
      (some [-55, -55, -55, -55, -55, -55, -55, -55, -55, -55])).threshold
      = -30 := by
  norm_num [AT.calibrate, AT.new, ATOptions.empty, jsOrQ, calculateMean,
    calculateStd]

/-- C7 (counterexample): on an empty frame the mean is `0/0 = NaN`, the
JavaScript guard `value <= 0` is false for `NaN`, and the dB computation
returns `20·log10(NaN/255) = NaN` — not the sentinel `-100` the claim
requires for a mean that is not strictly positive. -/
theorem empty_frame_db_is_nan_not_sentinel :
    toDecibel (calculateAverage []) ≠ DbOut.sentinel ∧
      toDecibel (calculateAverage []) = DbOut.logOf JSVal.nan := by
  decide

/-- C7 (amended): the per-frame dB computation is a total function (so frame
processing never throws), and for every non-empty frame it returns the
sentinel `-100` exactly when the frame's mean amplitude is not strictly
positive, and the value `20·log10(mean/255)` otherwise; an empty frame
degrades to `NaN` (see the counterexample) rather than to the sentinel, but
still without any exception. -/
theorem db_sentinel_iff_mean_nonpositive (frame : List ℕ)
    (h : frame ≠ []) :
    (toDecibel (calculateAverage frame) = DbOut.sentinel ↔
      ¬ (0 : ℚ) < (frame.sum : ℚ) / (frame.length : ℚ)) ∧
      (¬ toDecibel (calculateAverage frame) = DbOut.sentinel →
        toDecibel (calculateAverage frame) =
          DbOut.logOf (JSVal.num ((frame.sum : ℚ) / (frame.length : ℚ)))) := by
  have hlen : frame.length ≠ 0 := by
    simpa using List.length_pos.mpr h |>.ne'
  constructor
  · unfold toDecibel calculateAverage jsLeZero
    simp [hlen, not_lt]
  · intro hne
    unfold toDecibel calculateAverage jsLeZero at hne ⊢
    simp [hlen] at hne ⊢
    simpa using hne

/-- Witness for C7 (amended), at the all-zero two-byte frame: the mean is 0,
not strictly positive, and the sentinel is returned. -/
theorem db_sentinel_iff_mean_nonpositive_witness :
    ([0, 0] ≠ ([] : List ℕ)) ∧
      ((toDecibel (calculateAverage [0, 0]) = DbOut.sentinel ↔
        ¬ (0 : ℚ) < (([0, 0] : List ℕ).sum : ℚ) / (([0, 0] : List ℕ).length : ℚ)) ∧
        (¬ toDecibel (calculateAverage [0, 0]) = DbOut.sentinel →
          toDecibel (calculateAverage [0, 0]) =
            DbOut.logOf (JSVal.num ((([0, 0] : List ℕ).sum : ℚ) /
              (([0, 0] : List ℕ).length : ℚ))))) :=
  ⟨by decide, db_sentinel_iff_mean_nonpositive [0, 0] (by decide)⟩

/-- C8 (refuting the claim, as the spec's own §9 note anticipates): in the
state reached by a successful `startListening` with the default options —
`isListening = true` and an adaptive estimator present — `calibrationTimer`
never completes, for any call-stack budget: it recurses unboundedly with
unchanged state. It does return immediately once listening is off or no
estimator exists. -/
theorem calibrationTimer_never_completes :
    (∀ gas, calibrationTimerCompletes gas true true = false) ∧
      calibrationTimerCompletes 1 false true = true ∧
      calibrationTimerCompletes 1 true false = true := by
  refine ⟨fun gas => ?_, by decide, by decide⟩
  induction gas with
  | zero => rfl
  | succ n ih => simpa [calibrationTimerCompletes] using ih

example :
    (legacyStep (resolveConfig SIOptions.empty)
      (initDetState (resolveConfig SIOptions.empty) 0) ⟨-30, 0, 0⟩).1.speechConfirmCounter
      = 1 := by with_unfolding_all decide

theorem detectStep_not_calibrated (cfg : SIConfig) (msqrt : ℚ → ℚ)
    (now : ℚ) (m : Metrics) (st : DetState)
    (h : adaptiveCalibrated st = false) :
    detectStep cfg msqrt now m st = legacyStep cfg st m := by
  unfold adaptiveCalibrated at h
  cases hA : st.adaptive with
  | none => simp [detectStep, hA]
  | some atv =>
    rw [hA] at h
    simp only at h
    simp [detectStep, hA, h]

theorem legacyStep_adaptive (cfg : SIConfig) (st : DetState) (m : Metrics) :
    (legacyStep cfg st m).1.adaptive = st.adaptive := by
  unfold legacyStep
  dsimp only
  split
  · split
    · split <;> rfl
    · rfl
  · split <;> rfl

theorem legacyStep_judged (cfg : SIConfig) (st : DetState) (m : Metrics) :
    (legacyStep cfg st m).2.judgedSpeech = decide (m.db > cfg.legacyThreshold) := by
  unfold legacyStep
  dsimp only
  by_cases hj : m.db > cfg.legacyThreshold <;>
    by_cases hc : cfg.speechConfirmCount ≤ st.speechConfirmCounter + 1 <;>
      by_cases ha : st.isSpeechActive = true <;>
        by_cases hz : st.speechConfirmCounter - 1 = 0 <;>
          simp [hj, hc, ha, hz] <;> omega

theorem legacyStep_sampled (cfg : SIConfig) (st : DetState) (m : Metrics) :
    (legacyStep cfg st m).2.noiseSampled = false := by
  unfold legacyStep
  dsimp only
  split
  · split
    · split <;> rfl
    · rfl
  · split <;> rfl

theorem legacyStep_fired (cfg : SIConfig) (st : DetState) (m : Metrics) :
    (legacyStep cfg st m).2.fired =
      (decide (m.db > cfg.legacyThreshold) && !st.isSpeechActive &&
        decide (cfg.speechConfirmCount ≤ st.speechConfirmCounter + 1)) := by
  unfold legacyStep
  dsimp only
  by_cases hj : m.db > cfg.legacyThreshold <;>
    by_cases hc : cfg.speechConfirmCount ≤ st.speechConfirmCounter + 1 <;>
      by_cases ha : st.isSpeechActive = true <;>
        by_cases hz : st.speechConfirmCounter - 1 = 0 <;>
          simp [hj, hc, ha, hz] <;> omega

theorem legacyStep_counter (cfg : SIConfig) (st : DetState) (m : Metrics) :
    (legacyStep cfg st m).1.speechConfirmCounter =
      if m.db > cfg.legacyThreshold then
        min (st.speechConfirmCounter + 1) cfg.speechConfirmCount
      else st.speechConfirmCounter - 1 := by
  unfold legacyStep
  dsimp only
  by_cases hj : m.db > cfg.legacyThreshold <;>
    by_cases hc : cfg.speechConfirmCount ≤ st.speechConfirmCounter + 1 <;>
      by_cases ha : st.isSpeechActive = true <;>
        by_cases hz : st.speechConfirmCounter - 1 = 0 <;>
          simp [hj, hc, ha, hz] <;> omega

theorem legacyStep_active (cfg : SIConfig) (st : DetState) (m : Metrics) :
    (legacyStep cfg st m).1.isSpeechActive =
      (if m.db > cfg.legacyThreshold then
        st.isSpeechActive || decide (cfg.speechConfirmCount ≤ st.speechConfirmCounter + 1)
      else st.isSpeechActive && !decide (st.speechConfirmCounter - 1 = 0)) := by
  unfold legacyStep
  dsimp only
  by_cases hj : m.db > cfg.legacyThreshold <;>
    by_cases hc : cfg.speechConfirmCount ≤ st.speechConfirmCounter + 1 <;>
      by_cases ha : st.isSpeechActive = true <;>
        by_cases hz : st.speechConfirmCounter - 1 = 0 <;>
          simp [hj, hc, ha, hz] <;> omega

theorem initDetState_inv (cfg : SIConfig) (t0 : ℚ)
    (h2 : 2 ≤ cfg.speechConfirmCount) :
    LegacyInv cfg (initDetState cfg t0) := by
  constructor
  · by_cases hE : cfg.enableAdaptive = true <;>
      simp [adaptiveCalibrated, initDetState, hE, AT.reset]
  · intro _
    simp only [initDetState]
    omega

theorem initDetState_spikeSafe (cfg : SIConfig) (t0 : ℚ)
    (h2 : 2 ≤ cfg.speechConfirmCount) :
    SpikeSafe cfg (initDetState cfg t0) := by
  right
  simp only [initDetState]
  omega

theorem LegacyInv.step {cfg : SIConfig} {st : DetState}
    (h : LegacyInv cfg st) (h2 : 2 ≤ cfg.speechConfirmCount)
    (msqrt : ℚ → ℚ) (now : ℚ) (m : Metrics) :
    LegacyInv cfg (detectStep cfg msqrt now m st).1 := by
  rw [detectStep_not_calibrated cfg msqrt now m st h.1]
  constructor
  · unfold adaptiveCalibrated
    rw [legacyStep_adaptive]
    exact h.1
  · intro hact
    rw [legacyStep_active] at hact
    rw [legacyStep_counter]
    by_cases hj : m.db > cfg.legacyThreshold
    · simp only [hj, if_true] at hact ⊢
      by_cases ha : st.isSpeechActive = true
      · simp [ha] at hact
      · have := h.2 (by simpa using ha)
        simp [ha] at hact
        omega
    · simp only [hj, if_false] at hact ⊢
      by_cases ha : st.isSpeechActive = true
      · simp [ha] at hact
        omega
      · have := h.2 (by simpa using ha)
        omega

theorem legacy_silence_spikeSafe {cfg : SIConfig} {st : DetState}
    (h : LegacyInv cfg st) (h2 : 2 ≤ cfg.speechConfirmCount)
    (m : Metrics) (hj : (legacyStep cfg st m).2.judgedSpeech = false) :
    SpikeSafe cfg (legacyStep cfg st m).1 := by
  rw [legacyStep_judged] at hj
  simp only [decide_eq_false_iff_not] at hj
  by_cases hA : (legacyStep cfg st m).1.isSpeechActive = true
  · exact Or.inl hA
  · right
    rw [legacyStep_active] at hA
    rw [legacyStep_counter]
    simp only [hj, if_false] at hA ⊢
    by_cases ha : st.isSpeechActive = true
    · simp [ha] at hA
      omega
    · have := h.2 (by simpa using ha)
      omega

theorem spikeSafe_no_fire {cfg : SIConfig} {st : DetState}
    (h : SpikeSafe cfg st) (m : Metrics) :
    (legacyStep cfg st m).2.fired = false := by
  rw [legacyStep_fired]
  rcases h with h | h
  · simp [h]
  · simp
    intro _ hinact
    omega

theorem legacyStep_confirmStepOK {cfg : SIConfig} (st : DetState)
    (m : Metrics) :
    ConfirmStepOK cfg (st, (legacyStep cfg st m).2, (legacyStep cfg st m).1) := by
  refine ⟨?_, ?_, ?_⟩
  · intro hf
    rw [legacyStep_fired] at hf
    simp only [Bool.and_eq_true, Bool.not_eq_true', decide_eq_true_eq] at hf
    obtain ⟨⟨hj, ha⟩, hc⟩ := hf
    refine ⟨ha, ?_, ?_⟩
    · rw [legacyStep_active]
      simp [hj, hc]
    · rw [legacyStep_counter]
      simp [hj]
      omega
  · intro ha
    replace ha : st.isSpeechActive = true := ha
    rw [legacyStep_fired]
    simp [ha]
  · rw [legacyStep_counter, legacyStep_judged]
    by_cases hj : m.db > cfg.legacyThreshold <;> simp [hj]

theorem detTrace_discipline (cfg : SIConfig) (msqrt : ℚ → ℚ)
    (h2 : 2 ≤ cfg.speechConfirmCount) :
    ∀ (inputs : List (ℚ × Metrics)) (st : DetState), LegacyInv cfg st →
      (∀ e ∈ detTrace cfg msqrt st inputs, ConfirmStepOK cfg e) ∧
        (SpikeSafe cfg st →
          ∀ e, (detTrace cfg msqrt st inputs).head? = some e →
            e.2.1.judgedSpeech = true → e.2.1.fired = false) ∧
        List.Chain' IsolatedSpikeOK (detTrace cfg msqrt st inputs) := by
  intro inputs
  induction inputs with
  | nil => exact fun st _ => ⟨by simp [detTrace], by simp [detTrace], by simp [detTrace]⟩
  | cons p rest ih =>
    intro st hInv
    obtain ⟨now, m⟩ := p
    have hleg := detectStep_not_calibrated cfg msqrt now m st hInv.1
    have hInv' : LegacyInv cfg (detectStep cfg msqrt now m st).1 :=
      hInv.step h2 msqrt now m
    obtain ⟨ihOK, ihHead, ihChain⟩ :=
      ih (detectStep cfg msqrt now m st).1 hInv'
    refine ⟨?_, ?_, ?_⟩
    · intro e he
      rw [detTrace] at he
      simp only [List.mem_cons] at he
      rcases he with he | he
      · subst he
        simpa [hleg] using legacyStep_confirmStepOK st m
      · exact ihOK e he
    · intro hsafe e hhead
      rw [detTrace] at hhead
      simp only [List.head?_cons, Option.some.injEq] at hhead
      subst hhead
      intro _
      simp only [hleg]
      exact spikeSafe_no_fire hsafe m
    · rw [detTrace]
      rw [List.chain'_cons']
      refine ⟨?_, ihChain⟩
      intro b hb hjs hjb
      have hsafe : SpikeSafe cfg (detectStep cfg msqrt now m st).1 := by
        rw [hleg] at hjs ⊢
        exact legacy_silence_spikeSafe hInv h2 m (by simpa using hjs)
      exact ihHead hsafe b hb hjb

/-- C3: for every tick sequence fed to the interrupt detector from the
state produced by `startListening`, and any confirm target of at least 2
(the default is 2): the callback fires only from an inactive state, in the
very frame in which the counter reaches `confirmTarget`, and never again
while the detector stays active (exactly once per activation); the counter
increments capped at the target on each speech-like frame and decrements
floored at 0 otherwise; and a speech-like frame that is isolated — its
predecessor frame (or the start of the run) is not speech-like — never
fires the callback. -/
theorem interrupt_confirm_discipline (cfg : SIConfig) (msqrt : ℚ → ℚ)
    (t0 : ℚ) (h2 : 2 ≤ cfg.speechConfirmCount)
    (inputs : List (ℚ × Metrics)) :
    (∀ e ∈ detTrace cfg msqrt (initDetState cfg t0) inputs,
        ConfirmStepOK cfg e) ∧
      (∀ e, (detTrace cfg msqrt (initDetState cfg t0) inputs).head? = some e →
        e.2.1.judgedSpeech = true → e.2.1.fired = false) ∧
      List.Chain' IsolatedSpikeOK
        (detTrace cfg msqrt (initDetState cfg t0) inputs) := by
  obtain ⟨hOK, hHead, hChain⟩ :=
    detTrace_discipline cfg msqrt h2 inputs (initDetState cfg t0)
      (initDetState_inv cfg t0 h2)
  exact ⟨hOK, hHead (initDetState_spikeSafe cfg t0 h2), hChain⟩

/-- Witness for C3 at the default configuration on a concrete three-frame
run (two loud frames then a quiet one). -/
theorem interrupt_confirm_discipline_witness :
    2 ≤ (resolveConfig SIOptions.empty).speechConfirmCount ∧
      ((∀ e ∈ detTrace (resolveConfig SIOptions.empty) (fun q => q)
          (initDetState (resolveConfig SIOptions.empty) 0)
          [(0, ⟨-30, 0, 0⟩), (1, ⟨-30, 0, 0⟩), (2, ⟨-90, 0, 0⟩)],
          ConfirmStepOK (resolveConfig SIOptions.empty) e) ∧
        (∀ e, (detTrace (resolveConfig SIOptions.empty) (fun q => q)
            (initDetState (resolveConfig SIOptions.empty) 0)
            [(0, ⟨-30, 0, 0⟩), (1, ⟨-30, 0, 0⟩), (2, ⟨-90, 0, 0⟩)]).head? = some e →
          e.2.1.judgedSpeech = true → e.2.1.fired = false) ∧
        List.Chain' IsolatedSpikeOK
          (detTrace (resolveConfig SIOptions.empty) (fun q => q)
            (initDetState (resolveConfig SIOptions.empty) 0)
            [(0, ⟨-30, 0, 0⟩), (1, ⟨-30, 0, 0⟩), (2, ⟨-90, 0, 0⟩)])) :=
  ⟨by decide,
    interrupt_confirm_discipline (resolveConfig SIOptions.empty) (fun q => q) 0
      (by decide) [(0, ⟨-30, 0, 0⟩), (1, ⟨-30, 0, 0⟩), (2, ⟨-90, 0, 0⟩)]⟩

theorem adaptiveStep_sampled (cfg : SIConfig) (msqrt : ℚ → ℚ) (now : ℚ)
    (atv : AT) (m : Metrics) (st : DetState) :
    (adaptiveStep cfg msqrt now atv m st).2.noiseSampled =
      (!st.isSpeechActive && decide (m.rms < cfg.energyThreshold)) := by
  unfold adaptiveStep
  dsimp only
  split
  · split
    · split <;> rfl
    · rfl
  · split <;> rfl

theorem adaptiveStep_adaptive (cfg : SIConfig) (msqrt : ℚ → ℚ) (now : ℚ)
    (atv : AT) (m : Metrics) (st : DetState) :
    (adaptiveStep cfg msqrt now atv m st).1.adaptive =
      some (if !st.isSpeechActive && decide (m.rms < cfg.energyThreshold) then
        atv.addNoiseSample msqrt now m.db else atv) := by
  unfold adaptiveStep
  dsimp only
  split
  · split
    · split <;> rfl
    · rfl
  · split <;> rfl

/-- C4 (amended): on a processed frame, the frame's dB value is forwarded
to `addNoiseSample` **iff** the detector currently holds a *calibrated*
adaptive estimator, the detector is not speech-active, and the frame's RMS
energy is strictly below the energy gate; when that holds, the estimator is
updated with exactly that sample. Being inactive and below the gate alone
is *not* sufficient: `isCalibrated` is a further precondition (and since
noise sampling is the only way to obtain samples, it can never become true
from the frame loop alone). -/
theorem noise_sampling_iff (cfg : SIConfig) (msqrt : ℚ → ℚ) (now : ℚ)
    (m : Metrics) (st : DetState) :
    (detectStep cfg msqrt now m st).2.noiseSampled =
      (adaptiveCalibrated st && !st.isSpeechActive &&
        decide (m.rms < cfg.energyThreshold)) ∧
      ((detectStep cfg msqrt now m st).2.noiseSampled = true →
        ∀ atv, st.adaptive = some atv →
          (detectStep cfg msqrt now m st).1.adaptive =
            some (atv.addNoiseSample msqrt now m.db)) := by
  cases hA : st.adaptive with
  | none =>
    refine ⟨?_, ?_⟩
    · simp [detectStep, hA, legacyStep_sampled, adaptiveCalibrated]
    · intro _ atv hatv
      exact absurd hatv (by simp)
  | some atv0 =>
    by_cases hc : atv0.isCalibrated
    · have hstep : detectStep cfg msqrt now m st = adaptiveStep cfg msqrt now atv0 m st := by
        simp [detectStep, hA, hc]
      refine ⟨?_, ?_⟩
      · rw [hstep, adaptiveStep_sampled]
        simp [adaptiveCalibrated, hA, hc]
      · intro hs atv hatv
        injection hatv with hv
        subst hv
        rw [hstep] at hs ⊢
        rw [adaptiveStep_sampled] at hs
        rw [adaptiveStep_adaptive, hs]
        simp
    · have hcal : adaptiveCalibrated st = false := by
        simp [adaptiveCalibrated, hA, hc]
      have hstep := detectStep_not_calibrated cfg msqrt now m st hcal
      refine ⟨?_, ?_⟩
      · rw [hstep, legacyStep_sampled, hcal]
        simp
      · intro hs _ _
        rw [hstep, legacyStep_sampled] at hs
        exact absurd hs (by simp)

/-- Witness for C4 (amended): in a state holding a calibrated estimator,
inactive and below the gate, the sample is taken and appended. -/
theorem noise_sampling_iff_witness :
    ((detectStep (resolveConfig SIOptions.empty) (fun q => q) 0 ⟨-70, 0, 0⟩
        ⟨some ((AT.new ATOptions.empty 0).calibrate (fun q => q) 0
          (some [-55, -55, -55, -55, -55, -55, -55, -55, -55, -55])),
          0, 0, false, false, -50⟩).2.noiseSampled =
      (adaptiveCalibrated
          ⟨some ((AT.new ATOptions.empty 0).calibrate (fun q => q) 0
            (some [-55, -55, -55, -55, -55, -55, -55, -55, -55, -55])),
            0, 0, false, false, -50⟩ &&
        !(false : Bool) && decide ((0 : ℚ) < (resolveConfig SIOptions.empty).energyThreshold))) ∧
      adaptiveCalibrated
        ⟨some ((AT.new ATOptions.empty 0).calibrate (fun q => q) 0
          (some [-55, -55, -55, -55, -55, -55, -55, -55, -55, -55])),
          0, 0, false, false, -50⟩ = true := by
  constructor
  · have h := (noise_sampling_iff (resolveConfig SIOptions.empty) (fun q => q) 0
      ⟨-70, 0, 0⟩
      ⟨some ((AT.new ATOptions.empty 0).calibrate (fun q => q) 0
        (some [-55, -55, -55, -55, -55, -55, -55, -55, -55, -55])),
        0, 0, false, false, -50⟩).1
    simpa using h
  · with_unfolding_all decide

/-- C4 (counterexample): with the default options, in the state produced by
`startListening` (adaptive mode enabled but the estimator not yet
calibrated), a frame during which the detector is inactive and whose RMS
energy 0 is below the energy gate is **not** forwarded to
`addNoiseSample` — the legacy branch runs instead. -/
theorem noise_sampling_skipped_when_uncalibrated :
    (resolveConfig SIOptions.empty).enableAdaptive = true ∧
      (initDetState (resolveConfig SIOptions.empty) 0).isSpeechActive = false ∧
      ((0 : ℚ) < (resolveConfig SIOptions.empty).energyThreshold) ∧
      (detectStep (resolveConfig SIOptions.empty) (fun q => q) 0 ⟨-70, 0, 0⟩
        (initDetState (resolveConfig SIOptions.empty) 0)).2.noiseSampled = false := by
  refine ⟨by decide, by decide, by norm_num [resolveConfig, SIOptions.empty], ?_⟩
  have h := initDetState_inv (resolveConfig SIOptions.empty) 0 (by decide)
  rw [detectStep_not_calibrated _ _ _ _ _ h.1, legacyStep_sampled]

theorem adaptiveStep_deactivation (cfg : SIConfig) (msqrt : ℚ → ℚ)
    (now : ℚ) (atv : AT) (m : Metrics) (st : DetState)
    (hact : st.isSpeechActive = true)
    (hpost : (adaptiveStep cfg msqrt now atv m st).1.isSpeechActive = false) :
    (adaptiveStep cfg msqrt now atv m st).2.fired = false ∧
      (adaptiveStep cfg msqrt now atv m st).2.judgedSpeech = false ∧
      (adaptiveStep cfg msqrt now atv m st).1.speechConfirmCounter = 0 ∧
      now - st.lastSpeechTime > 500 := by
  unfold adaptiveStep at hpost ⊢
  dsimp only at hpost ⊢
  by_cases hj : judgeSpeech cfg atv.threshold m = true
  · by_cases hc : cfg.speechConfirmCount ≤ st.speechConfirmCounter + 1 <;>
      simp [hj, hc, hact] at hpost
  · by_cases hd : now - st.lastSpeechTime > 500
    · simp [hj, hd, hact]
    · simp [hj, hd, hact] at hpost

/-- C5 (amended): once active, the interrupt detector deactivates only on a
non-speech-like frame, no callback fires at deactivation (it is silent),
and the counter is 0 afterwards; but the dwell condition is **not** "the
counter has been 0 continuously for ≥ 500 ms": in the adaptive-calibrated
branch the detector deactivates exactly when the frame is non-speech-like
and more than 500 ms have elapsed since *activation* (`lastSpeechTime` is
assigned only when the detector becomes active), regardless of the
counter's history; in the uncalibrated/legacy branch — the one every run
started by `startListening` actually uses — it deactivates as soon as the
decremented counter reaches 0, with no 500 ms dwell at all. -/
theorem interrupt_deactivation_rule (cfg : SIConfig) (msqrt : ℚ → ℚ)
    (now : ℚ) (m : Metrics) (st : DetState)
    (hact : st.isSpeechActive = true)
    (hpost : (detectStep cfg msqrt now m st).1.isSpeechActive = false) :
    (detectStep cfg msqrt now m st).2.fired = false ∧
      (detectStep cfg msqrt now m st).2.judgedSpeech = false ∧
      (detectStep cfg msqrt now m st).1.speechConfirmCounter = 0 ∧
      (adaptiveCalibrated st = true → now - st.lastSpeechTime > 500) ∧
      (adaptiveCalibrated st = false → st.speechConfirmCounter ≤ 1) := by
  by_cases hcal : adaptiveCalibrated st = true
  · obtain ⟨atv, hA⟩ : ∃ atv, st.adaptive = some atv := by
      unfold adaptiveCalibrated at hcal
      cases hA : st.adaptive with
      | none => rw [hA] at hcal; simp at hcal
      | some a => exact ⟨a, rfl⟩
    have hc : atv.isCalibrated = true := by
      unfold adaptiveCalibrated at hcal
      rw [hA] at hcal
      exact hcal
    have hstep : detectStep cfg msqrt now m st = adaptiveStep cfg msqrt now atv m st := by
      simp [detectStep, hA, hc]
    rw [hstep] at hpost ⊢
    obtain ⟨h1, h2, h3, h4⟩ :=
      adaptiveStep_deactivation cfg msqrt now atv m st hact hpost
    exact ⟨h1, h2, h3, fun _ => h4, fun hne => absurd hcal (by simp [hne])⟩
  · have hcal' : adaptiveCalibrated st = false := by
      simpa using hcal
    have hstep := detectStep_not_calibrated cfg msqrt now m st hcal'
    rw [hstep] at hpost ⊢
    have hj : (legacyStep cfg st m).2.judgedSpeech = false := by
      rw [legacyStep_judged]
      by_contra hj
      simp only [Bool.not_eq_false, decide_eq_true_eq] at hj
      rw [legacyStep_active] at hpost
      simp [hj, hact] at hpost
    have hjp : ¬ m.db > cfg.legacyThreshold := by
      rw [legacyStep_judged] at hj
      simpa using hj
    have hz : st.speechConfirmCounter - 1 = 0 := by
      rw [legacyStep_active] at hpost
      by_contra hz
      simp [hjp, hact, hz] at hpost
    refine ⟨?_, hj, ?_, ?_, ?_⟩
    · rw [legacyStep_fired]
      simp [hjp]
    · rw [legacyStep_counter]
      simp [hjp, hz]
    · intro hcontra
      exact absurd hcontra (by simp [hcal'])
    · intro _
      omega

/-- Witness for C5 (amended): a concrete active legacy-branch state with
counter 1 deactivates on a quiet frame 3 ms in; the step is silent and the
counter ends at 0. -/
theorem interrupt_deactivation_rule_witness :
    ((⟨none, 1, 0, true, true, -50⟩ : DetState).isSpeechActive = true) ∧
      ((detectStep (resolveConfig SIOptions.empty) (fun q => q) 3 ⟨-90, 0, 0⟩
        ⟨none, 1, 0, true, true, -50⟩).1.isSpeechActive = false) ∧
      ((detectStep (resolveConfig SIOptions.empty) (fun q => q) 3 ⟨-90, 0, 0⟩
          ⟨none, 1, 0, true, true, -50⟩).2.fired = false ∧
        (detectStep (resolveConfig SIOptions.empty) (fun q => q) 3 ⟨-90, 0, 0⟩
          ⟨none, 1, 0, true, true, -50⟩).2.judgedSpeech = false ∧
        (detectStep (resolveConfig SIOptions.empty) (fun q => q) 3 ⟨-90, 0, 0⟩
          ⟨none, 1, 0, true, true, -50⟩).1.speechConfirmCounter = 0 ∧
        (adaptiveCalibrated ⟨none, 1, 0, true, true, -50⟩ = true →
          (3 : ℚ) - 0 > 500) ∧
        (adaptiveCalibrated ⟨none, 1, 0, true, true, -50⟩ = false →
          (⟨none, 1, 0, true, true, -50⟩ : DetState).speechConfirmCounter ≤ 1)) :=
  ⟨rfl, by decide,
    interrupt_deactivation_rule (resolveConfig SIOptions.empty) (fun q => q) 3
      ⟨-90, 0, 0⟩ ⟨none, 1, 0, true, true, -50⟩ rfl (by decide)⟩

/-- C5 (counterexample): with the default configuration, starting from
`startListening`, two loud frames at times 0 and 1 activate the detector
(callback fires at time 1) and two quiet frames at times 2 and 3 deactivate
it at time 3 — only 2 ms after activation, although the confirm counter was
2 at time 1, 1 at time 2 and reached 0 only in the very frame that
deactivated it; it was never at 0 continuously for 500 ms. -/
theorem interrupt_deactivates_without_dwell :
    ((detTrace (resolveConfig SIOptions.empty) (fun q => q)
        (initDetState (resolveConfig SIOptions.empty) 0)
        [(0, ⟨-30, 0, 0⟩), (1, ⟨-30, 0, 0⟩), (2, ⟨-90, 0, 0⟩), (3, ⟨-90, 0, 0⟩)]).map
      (fun e => (e.2.1.fired, e.2.2.isSpeechActive, e.2.2.speechConfirmCounter)) =
      [(false, false, 1), (true, true, 2), (false, true, 1), (false, false, 0)]) ∧
      ((3 : ℚ) - 1 < 500) := by
  constructor
  · with_unfolding_all decide
  · norm_num

/-- C10 (counterexample): `enableMultiLevel = options.enableMultiLevel !==
true` is a destructuring default, applied only when the property is
`undefined`; a defined value passes through. So passing `true` keeps
multi-level mode **on** although the claim's criterion
`options.enableMultiLevel !== true` is false there, and passing `false`
turns it **off** although the criterion is true there — the claimed "iff"
fails in both defined cases. -/
theorem multiLevel_on_despite_true_option :
    ((resolveConfig
        ⟨none, none, none, none, none, some true, none, none, none⟩).enableMultiLevel
      = true) ∧
      ¬ ((⟨none, none, none, none, none, some true, none, none, none⟩ :
        SIOptions).enableMultiLevel ≠ some true) ∧
      ((resolveConfig
          ⟨none, none, none, none, none, some false, none, none, none⟩).enableMultiLevel
        = false) ∧
      ((⟨none, none, none, none, none, some false, none, none, none⟩ :
        SIOptions).enableMultiLevel ≠ some true) := by
  refine ⟨rfl, ?_, rfl, ?_⟩ <;> decide

/-- C10 (amended): the multi-level flag is the given option value, with
`true` for an absent one (the `!== true` expression is only the
destructuring default, evaluated when the property is `undefined`, where it
yields `true`). So the combined RMS-and-ZCR-and-dB test of the adaptive
branch is selected exactly when the option is *not* `false`: omitting the
option or passing `true` keeps multi-level mode, and only
`enableMultiLevel: false` disables it, leaving the simple dB-threshold
comparison alone. -/
theorem multiLevel_iff_option_not_false (o : SIOptions) :
    ((resolveConfig o).enableMultiLevel = true ↔ o.enableMultiLevel ≠ some false) ∧
      ((resolveConfig o).enableMultiLevel = false → ∀ thr m,
        judgeSpeech (resolveConfig o) thr m = decide (m.db > thr)) ∧
      ((resolveConfig o).enableMultiLevel = true → ∀ thr m,
        judgeSpeech (resolveConfig o) thr m =
          (decide (m.rms > (resolveConfig o).energyThreshold) &&
            (decide (m.zcr > (resolveConfig o).zcrThreshold) &&
              decide (m.zcr < 1/2)) &&
            decide (m.db > thr))) := by
  refine ⟨?_, ?_, ?_⟩
  · cases hE : o.enableMultiLevel with
    | none => simp [resolveConfig, hE]
    | some b => cases b <;> simp [resolveConfig, hE]
  · intro hf thr m
    unfold judgeSpeech
    simp [hf]
  · intro ht thr m
    unfold judgeSpeech
    simp [ht]

/-- Witness for C10 (amended): with the empty options object the flag
resolves to `true` and the combined three-level test is the one used. -/
theorem multiLevel_iff_option_not_false_witness :
    ((resolveConfig SIOptions.empty).enableMultiLevel = true) ∧
      judgeSpeech (resolveConfig SIOptions.empty) (-45) ⟨-30, 1/10, 3/10⟩ =
        (decide ((1 : ℚ)/10 > (resolveConfig SIOptions.empty).energyThreshold) &&
          (decide ((3 : ℚ)/10 > (resolveConfig SIOptions.empty).zcrThreshold) &&
            decide ((3 : ℚ)/10 < 1/2)) &&
          decide ((-30 : ℚ) > -45)) :=
  ⟨by decide,
    (multiLevel_iff_option_not_false SIOptions.empty).2.2 (by decide) (-45)
      ⟨-30, 1/10, 3/10⟩⟩

/-- C6 (evaluating the code at the failing input): a wake match at time 0
followed by no manual stop notifies waking then recording, emits exactly
five countdown ticks, one per second at 1000…5000 ms; but when the
countdown reaches zero the session is reset to **idle** — the state
machine never transitions to `processing`, and `enterProcessingState`,
though defined (and handled by the `VoiceInput.vue` UI), is never
invoked. -/
theorem wake_countdown_ends_in_idle_not_processing :
    (wakeSessionRun 0).1.state = WakeState.idle ∧
      (wakeSessionRun 0).1.state ≠ WakeState.processing ∧
      (wakeSessionRun 0).1.notifications =
        [WakeState.waking, WakeState.recording, WakeState.idle] ∧
      WakeState.processing ∉ (wakeSessionRun 0).1.notifications ∧
      (wakeSessionRun 0).2 =
        [(1000, 4), (2000, 3), (3000, 2), (4000, 1), (5000, 0)] ∧
      (enterProcessingState ⟨WakeState.recording, []⟩).state =
        WakeState.processing := by
  refine ⟨rfl, by decide, rfl, by decide, ?_, rfl⟩
  show countdownTicks (5000 / 1000) 0 =
    [(1000, 4), (2000, 3), (3000, 2), (4000, 1), (5000, 0)]
  norm_num [countdownTicks]

/-- C9 (amended): per-tick rules of the VAD preset. While inactive, the
first tick with `v > threshold` immediately activates, records
`speechStartTime = now` and fires `onSpeechStart`; other inactive ticks do
nothing. While active, a tick with `v > threshold` changes **nothing** — in
particular it does *not* cancel a pending silence window. While active and
`v ≤ threshold`, the silence start is the previously recorded one (kept
across intervening loud ticks) or `now` if none is recorded, and
`onSpeechEnd` fires exactly when `now - silenceStartTime ≥
endSilenceDuration` and `now - speechStartTime ≥ minSpeechDuration`
(`speechStartTime = 0` degrading to a 0 speech duration by JavaScript
falsiness); otherwise the detector stays active with the silence window
stored. -/
theorem vad_step_rules (cfg : VADConfig) (now v : ℚ) (st : VADState) :
    (st.isSpeechActive = false → v > cfg.threshold →
      vadStep cfg now v st = (⟨true, some now, none⟩, ⟨true, false⟩)) ∧
      (st.isSpeechActive = false → ¬ v > cfg.threshold →
        vadStep cfg now v st = (st, ⟨false, false⟩)) ∧
      (st.isSpeechActive = true → v > cfg.threshold →
        vadStep cfg now v st = (st, ⟨false, false⟩)) ∧
      (st.isSpeechActive = true → ¬ v > cfg.threshold →
        ((vadStep cfg now v st).2.endFired =
          decide (now - (if jsTruthyOpt st.silenceStartTime then
              st.silenceStartTime else some now).getD 0 ≥ cfg.endSilenceDuration ∧
            (if jsTruthyOpt st.speechStartTime then
              now - st.speechStartTime.getD 0 else 0) ≥ cfg.minSpeechDuration)) ∧
          ((vadStep cfg now v st).2.endFired = false →
            (vadStep cfg now v st).1 =
              { st with silenceStartTime :=
                  if jsTruthyOpt st.silenceStartTime then st.silenceStartTime
                  else some now }) ∧
          ((vadStep cfg now v st).2.endFired = true →
            (vadStep cfg now v st).1 = ⟨false, none, none⟩)) := by
  refine ⟨?_, ?_, ?_, ?_⟩
  · intro ha hv
    simp [vadStep, ha, hv]
  · intro ha hv
    simp [vadStep, ha, hv]
  · intro ha hv
    simp [vadStep, ha, hv]
  · intro ha hv
    unfold vadStep
    simp only [ha, hv, if_false, if_true]
    by_cases hend : now - (if jsTruthyOpt st.silenceStartTime then
        st.silenceStartTime else some now).getD 0 ≥ cfg.endSilenceDuration ∧
        (if jsTruthyOpt st.speechStartTime then
          now - st.speechStartTime.getD 0 else 0) ≥ cfg.minSpeechDuration
    · simp [hend]
    · simp [hend]

/-- Witness for C9 (amended): from the freshly started state, a tick of
volume 0.03 at time 1000 activates, records the start time and fires
`onSpeechStart`. -/
theorem vad_step_rules_witness :
    (vadInit.isSpeechActive = false) ∧ ((3 : ℚ)/100 > vadVoiceInputConfig.threshold) ∧
      vadStep vadVoiceInputConfig 1000 (3/100) vadInit =
        (⟨true, some 1000, none⟩, ⟨true, false⟩) :=
  ⟨rfl, by norm_num [vadVoiceInputConfig, VADConfig.ofOptions, jsOrQ],
    (vad_step_rules vadVoiceInputConfig 1000 (3/100) vadInit).1 rfl
      (by norm_num [vadVoiceInputConfig, VADConfig.ofOptions, jsOrQ])⟩

/-- C9 (counterexample): with `threshold 0.02`, `endSilenceDuration 800`,
`minSpeechDuration 300` (the `VoiceInput.vue` configuration), feed the
ticks (time, volume) `(1000, .03), (1400, .01), (1500, .03), (2200, .01)`:
`onSpeechStart` fires at 1000; the dip at 1400 opens a silence window; the
loud tick at 1500 does **not** cancel it; and `onSpeechEnd` fires at 2200 —
even though the unbroken sub-threshold run before it spans 0 ms (the
previous tick, 700 ms earlier, was above the threshold), so the claim's
"unbroken run of at least 800 ms" and "a loud tick cancels the pending
silence window" both fail on the code. -/
theorem vad_end_fires_despite_loud_tick :
    ((vadTrace vadVoiceInputConfig vadInit
        [(1000, 3/100), (1400, 1/100), (1500, 3/100), (2200, 1/100)]).map
      (fun e => (e.2.1.startFired, e.2.1.endFired)) =
      [(true, false), (false, false), (false, false), (false, true)]) ∧
      ((3 : ℚ)/100 > vadVoiceInputConfig.threshold) ∧
      ((2200 : ℚ) - 1500 < 800) := by
  refine ⟨?_, by norm_num [vadVoiceInputConfig, VADConfig.ofOptions, jsOrQ], by norm_num⟩
  with_unfolding_all decide
